import Mathlib

/-!
Verification of the port_checker monitor: a shallow embedding of the
status-tracking / alert-escalation engine (`main.go`) and of the probe
executor (`checker.go`), with theorems settling the frozen claims about
the natural-language specification.

Modelling conventions:
* Go `time.Time` and `time.Duration` are both integers counting
  nanoseconds (the Go zero `time.Time` is `0`, far in the past relative
  to any realistic `now`).
* Network effects are an oracle argument: the outcome of a TCP dial or
  an HTTP GET is passed in, and `CheckEndpoint` turns it into a
  `CheckResult` exactly the way `checker.go` does.
* The Telegram notifier is observed through the list of notifications a
  call dispatches (the arguments `main.go` passes to `SendUpAlert`,
  `SendDownAlert`, `SendCertExpiryWarning`); dispatch success or failure
  never flows back into the stored state, exactly as in the source,
  where a failed dispatch is only logged.
* The one piece of genuine pointer state, `EndpointStatus.CertExpiry`
  (a `*time.Time` freshly allocated by each probe), is modelled as an
  address into an append-only heap of timestamps held by the `Monitor`.
-/

namespace PortChecker

/-- Go `time.Time`, as nanoseconds since the zero time. -/
abbrev Time := Int

/-- Go `time.Duration`, in nanoseconds. -/
abbrev Duration := Int

/-- `n * time.Minute` in nanoseconds. -/
def minutes (n : Int) : Duration := n * 60 * 1000000000

/-- `n * time.Hour` in nanoseconds. -/
def hours (n : Int) : Duration := n * 3600 * 1000000000

/-- `CheckResult` from `checker.go`: the outcome of one probe.
`certExpiry` carries the value behind the Go `*time.Time` (present
exactly when the pointer is non-nil). -/
structure CheckResult where
  isUp : Bool
  responseTime : Duration
  statusCode : Int
  error : String
  certExpiry : Option Time
deriving Repr, DecidableEq

/-- The network outcome of one HTTP/HTTPS GET, as seen by `checkHTTP`:
either `client.Get` returned an error, or a response arrived with a
status code and (when the connection was TLS with a peer certificate)
the leaf certificate's `NotAfter` timestamp. -/
inductive HTTPOutcome where
  | requestError (msg : String)
  | response (statusCode : Int) (tlsLeafNotAfter : Option Time)
deriving Repr, DecidableEq

/-- The network oracle consumed by one `CheckEndpoint` call: the result
of the TCP dial (`none` = connection established, `some msg` = dial
error with message `msg`), the result of the HTTP GET, and the measured
response time. -/
structure NetworkOracle where
  tcpDialError : Option String
  httpOutcome : HTTPOutcome
  responseTime : Duration
deriving Repr, DecidableEq

/-- Go `strings.HasPrefix(s, pre)`, expressed on the character lists of
the two strings so that it evaluates by kernel reduction. -/
def startsWithStr (s pre : String) : Bool := pre.data.isPrefixOf s.data

/-- `checkTCP` from `checker.go`: a dial error yields a down result
carrying the error message; otherwise the endpoint is up.  Fields not
assigned in the source keep their Go zero values. -/
def checkTCP (dialErr : Option String) (responseTime : Duration) : CheckResult :=
  match dialErr with
  | some msg =>
    { isUp := false, responseTime := responseTime, statusCode := 0,
      error := msg, certExpiry := none }
  | none =>
    { isUp := true, responseTime := responseTime, statusCode := 0,
      error := "", certExpiry := none }

/-- `checkHTTP` from `checker.go`, after the request has been issued: a
request error yields a down result with the error text; a response
records the status code, takes the TLS leaf certificate expiry only for
`https://` endpoints, and classifies codes in `[200, 400)` as up, every
other code as down with error `"HTTP <code>"`. -/
def checkHTTP (endpoint : String) (outcome : HTTPOutcome)
    (responseTime : Duration) : CheckResult :=
  match outcome with
  | .requestError msg =>
    { isUp := false, responseTime := responseTime, statusCode := 0,
      error := msg, certExpiry := none }
  | .response statusCode tlsLeafNotAfter =>
    let certExpiry : Option Time :=
      if startsWithStr endpoint "https://" then tlsLeafNotAfter else none
    if 200 ≤ statusCode ∧ statusCode < 400 then
      { isUp := true, responseTime := responseTime, statusCode := statusCode,
        error := "", certExpiry := certExpiry }
    else
      { isUp := false, responseTime := responseTime, statusCode := statusCode,
        error := "HTTP " ++ toString statusCode, certExpiry := certExpiry }

/-- `CheckEndpoint` from `checker.go`: URLs beginning `http://` or
`https://` go through `checkHTTP`, everything else defaults to a TCP
check. -/
def CheckEndpoint (endpoint : String) (net : NetworkOracle) : CheckResult :=
  if startsWithStr endpoint "http://" || startsWithStr endpoint "https://" then
    checkHTTP endpoint net.httpOutcome net.responseTime
  else
    checkTCP net.tcpDialError net.responseTime

/-- `EndpointStatus` from `main.go`: the per-endpoint mutable record.
`certExpiry` is the Go `*time.Time` pointer, modelled as an address
into the monitor's timestamp heap (`none` = nil pointer). -/
structure EndpointStatus where
  isUp : Bool
  lastCheck : Time
  lastStatusChange : Time
  responseTime : Duration
  failureCount : Int
  lastAlertTime : Time
  statusCode : Int
  certExpiry : Option Nat
deriving Repr, DecidableEq

/-- One notification handed to the Telegram notifier, with the
arguments `main.go` passes: `SendUpAlert(endpoint, failureCount,
downtime)`, `SendDownAlert(endpoint, failureCount, error)`,
`SendCertExpiryWarning(endpoint, expiry)`. -/
inductive Notification where
  | upAlert (endpoint : String) (failureCount : Int) (downtime : Duration)
  | downAlert (endpoint : String) (failureCount : Int) (error : String)
  | certExpiryWarning (endpoint : String) (expiry : Time)
deriving Repr, DecidableEq

/-- Is this notification an up-recovery alert? -/
def Notification.isUpAlert : Notification → Bool
  | .upAlert _ _ _ => true
  | _ => false

/-- Is this notification a down alert? -/
def Notification.isDownAlert : Notification → Bool
  | .downAlert _ _ _ => true
  | _ => false

/-- Is this notification a certificate-expiry warning? -/
def Notification.isCertWarning : Notification → Bool
  | .certExpiryWarning _ _ => true
  | _ => false

/-- The `Monitor`'s mutable state: the status map (Go
`map[string]*EndpointStatus`, as an association list with value
semantics — `CheckAndNotify` is its only writer) together with the
append-only heap of `time.Time` cells that `CertExpiry` pointers refer
to.  Each probe that carries a certificate expiry allocates a fresh
cell (`&cert.NotAfter` of a fresh response), so existing cells are
never overwritten. -/
structure Monitor where
  statusMap : List (String × EndpointStatus)
  timeHeap : List Time
deriving Repr, DecidableEq

/-- `NewMonitor`: empty status map, nothing allocated. -/
def Monitor.init : Monitor := { statusMap := [], timeHeap := [] }

/-- Go map lookup `m.statusMap[endpoint]`. -/
def lookupStatus : List (String × EndpointStatus) → String → Option EndpointStatus
  | [], _ => none
  | (k, v) :: rest, key => if k = key then some v else lookupStatus rest key

/-- Go map store `m.statusMap[endpoint] = status` (replace the binding,
or append a new one). -/
def insertStatus : List (String × EndpointStatus) → String → EndpointStatus →
    List (String × EndpointStatus)
  | [], key, v => [(key, v)]
  | (k, w) :: rest, key, v =>
    if k = key then (key, v) :: rest else (k, w) :: insertStatus rest key v

/-- `main.go` lines 62-64: the fresh `EndpointStatus` created for an
endpoint on its first check — all Go zero values except
`LastStatusChange: now`. -/
def zeroStatus (now : Time) : EndpointStatus :=
  { isUp := false, lastCheck := 0, lastStatusChange := now, responseTime := 0,
    failureCount := 0, lastAlertTime := 0, statusCode := 0, certExpiry := none }

/-- `main.go` lines 70-81, "Update metrics": copy the probe's fields
into the stored record, then reset the failure count on an up result or
increment it on a down result. -/
def updateMetrics (status : EndpointStatus) (result : CheckResult) (now : Time)
    (certPtr : Option Nat) : EndpointStatus :=
  let status1 : EndpointStatus :=
    { status with
      lastCheck := now
      responseTime := result.responseTime
      statusCode := result.statusCode
      certExpiry := certPtr }
  if result.isUp then { status1 with failureCount := 0, isUp := true }
  else { status1 with failureCount := status1.failureCount + 1, isUp := false }

/-- `main.go` lines 90-112, "Determine if we should send alert (with
throttling)": a status change always alerts; an ongoing failure alerts
at failure count 3, at 6 after more than 15 minutes since the last
alert, and at 10 or more after more than 30 minutes.  `status` is the
record after the metrics update. -/
def alertPolicy (statusChanged : Bool) (result : CheckResult)
    (status : EndpointStatus) (now : Time) : Bool :=
  if statusChanged then true
  else if !result.isUp then
    if status.failureCount = 3 then true
    else if status.failureCount = 6 ∧ now - status.lastAlertTime > minutes 15 then
      true
    else if status.failureCount ≥ 10 ∧ now - status.lastAlertTime > minutes 30 then
      true
    else false
  else false

/-- `main.go` lines 114-125, the SSL-certificate-expiry block: when the
probe carried a certificate expiry that lies strictly within the next
30 days and more than 24 hours have passed since `lastAlertTime`,
dispatch a warning.  This block runs before the status-change block, so
`status.lastAlertTime` is the not-yet-updated value. -/
def certExpiryBlock (endpoint : String) (result : CheckResult)
    (status : EndpointStatus) (now : Time) : List Notification :=
  match result.certExpiry with
  | some expiry =>
    let untilExpiry : Duration := expiry - now
    if untilExpiry ≤ hours (30 * 24) ∧ 0 < untilExpiry then
      if now - status.lastAlertTime > hours 24 then
        [.certExpiryWarning endpoint expiry]
      else []
    else []
  | none => []

/-- `main.go` lines 128-145, "Send status change notifications":
`status` is the stored record at dispatch time (its `lastAlertTime` was
set to `now` just before, and its `failureCount` is the post-update
count). -/
def statusChangeBlock (endpoint : String) (result : CheckResult)
    (exists_ previousStatus shouldAlert : Bool) (status : EndpointStatus)
    (now : Time) : List Notification :=
  if shouldAlert then
    if result.isUp then
      if exists_ = true ∧ previousStatus = false then
        [.upAlert endpoint status.failureCount (now - status.lastStatusChange)]
      else []
    else
      [.downAlert endpoint status.failureCount result.error]
  else []

/-- `main.go` lines 60-66: the stored record for the endpoint, or a
freshly created one when this is the first check. -/
def foundStatus (m : Monitor) (endpoint : String) (now : Time) : EndpointStatus :=
  match lookupStatus m.statusMap endpoint with
  | some st => st
  | none => zeroStatus now

/-- The allocation behind `status.CertExpiry = result.CertExpiry`
(`main.go` line 73): when the probe carried a certificate expiry, a
fresh heap cell holds it and the stored field points there; otherwise
the pointer is nil.  Returns (new heap, pointer). -/
def allocCert (heap : List Time) (certExpiry : Option Time) :
    List Time × Option Nat :=
  match certExpiry with
  | some t => (heap ++ [t], some heap.length)
  | none => (heap, none)

/-- `CheckAndNotify` from `main.go`, lines 53-146, as one pure step:
given the pre-state, the endpoint, the probe's `CheckResult` and the
time `now := time.Now()`, produce the post-state and the list of
notifications dispatched during the call (in dispatch order: the
certificate-expiry warning block runs before the status-change block).
Dispatch failure only produces a log line in the source, so it has no
trace in the state. -/
def CheckAndNotify (m : Monitor) (endpoint : String) (result : CheckResult)
    (now : Time) : Monitor × List Notification :=
  let exists_ : Bool := (lookupStatus m.statusMap endpoint).isSome
  let status0 : EndpointStatus := foundStatus m endpoint now
  let previousStatus : Bool := status0.isUp
  -- status.CertExpiry = result.CertExpiry: the probe's pointer is a fresh
  -- allocation, modelled by appending one cell to the heap.
  let heap1 : List Time := (allocCert m.timeHeap result.certExpiry).1
  let certPtr : Option Nat := (allocCert m.timeHeap result.certExpiry).2
  let status2 := updateMetrics status0 result now certPtr
  let statusChanged : Bool := !exists_ || previousStatus != result.isUp
  let status3 : EndpointStatus :=
    if statusChanged then { status2 with lastStatusChange := now } else status2
  let shouldAlert : Bool := alertPolicy statusChanged result status2 now
  let certNotifs := certExpiryBlock endpoint result status3 now
  let status4 : EndpointStatus :=
    if shouldAlert then { status3 with lastAlertTime := now } else status3
  let alertNotifs :=
    statusChangeBlock endpoint result exists_ previousStatus shouldAlert status4 now
  ({ statusMap := insertStatus m.statusMap endpoint status4, timeHeap := heap1 },
   certNotifs ++ alertNotifs)

/-- `GetAllStatuses` from `main.go`: iterate over the live map and copy
each endpoint's record into a fresh snapshot. -/
def GetAllStatuses (m : Monitor) : List (String × EndpointStatus) :=
  m.statusMap.foldl (fun snapshot p => snapshot ++ [p]) []

/-- Heap well-formedness: every `certExpiry` address stored in the map
points inside the timestamp heap.  Holds for every state reachable from
`Monitor.init`. -/
def heapWF (m : Monitor) : Bool :=
  m.statusMap.all fun p =>
    match p.2.certExpiry with
    | some i => decide (i < m.timeHeap.length)
    | none => true

/-- Run a sequence of `CheckAndNotify` calls for one endpoint (probe
result paired with the call's `now`), starting from a given state and
discarding notifications. -/
def runChecks (endpoint : String) (m : Monitor) :
    List (CheckResult × Time) → Monitor
  | [] => m
  | (r, t) :: rest => runChecks endpoint (CheckAndNotify m endpoint r t).1 rest

/-! ### Spec-side definitions

These follow the wording of the specification (with the amendments the
code forces) and are compared against the behaviour of the embedded
source functions. -/

/-- The stored `isUp` of an endpoint before a call (Go zero value
`false` when the endpoint has never been checked). -/
def prevIsUp (m : Monitor) (ep : String) : Bool :=
  match lookupStatus m.statusMap ep with
  | some st => st.isUp
  | none => false

/-- The stored `failureCount` before a call (0 when absent). -/
def prevFailureCount (m : Monitor) (ep : String) : Int :=
  match lookupStatus m.statusMap ep with
  | some st => st.failureCount
  | none => 0

/-- The stored `lastAlertTime` before a call (the zero time when
absent). -/
def prevAlertTime (m : Monitor) (ep : String) : Time :=
  match lookupStatus m.statusMap ep with
  | some st => st.lastAlertTime
  | none => 0

/-- The failure count after the metrics update of a call: reset to 0 on
an up result, incremented on a down result. -/
def newFailureCount (m : Monitor) (ep : String) (result : CheckResult) : Int :=
  if result.isUp = true then 0 else prevFailureCount m ep + 1

/-- Escalation rule for an endpoint that stays down, as the code
implements it: re-alert exactly at consecutive-failure count 3, at
count 6 when strictly more than 15 minutes have passed since the last
alert time, and at any count from 10 on when strictly more than 30
minutes have passed. -/
def escalationFires (fc : Int) (sinceAlert : Duration) : Prop :=
  fc = 3 ∨ (fc = 6 ∧ sinceAlert > minutes 15) ∨ (10 ≤ fc ∧ sinceAlert > minutes 30)

instance escalationFiresDec (fc : Int) (sinceAlert : Duration) :
    Decidable (escalationFires fc sinceAlert) := by
  unfold escalationFires
  infer_instance

/-- A status transition in the sense of the spec: first-ever check, or
stored up/down differs from the new result. -/
def statusTransition (m : Monitor) (ep : String) (result : CheckResult) : Prop :=
  lookupStatus m.statusMap ep = none ∨ prevIsUp m ep ≠ result.isUp

instance statusTransitionDec (m : Monitor) (ep : String) (result : CheckResult) :
    Decidable (statusTransition m ep result) := by
  unfold statusTransition
  infer_instance

/-- The complete alert decision of one call: a status transition, or an
ongoing failure whose escalation rule fires. -/
def alertDecision (m : Monitor) (ep : String) (result : CheckResult)
    (now : Time) : Prop :=
  statusTransition m ep result ∨
    (result.isUp = false ∧
      escalationFires (newFailureCount m ep result) (now - prevAlertTime m ep))

instance alertDecisionDec (m : Monitor) (ep : String) (result : CheckResult)
    (now : Time) : Decidable (alertDecision m ep result now) := by
  unfold alertDecision
  infer_instance

/-- Spec wording for the `failure_count` invariant: the number of
consecutive `false` entries at the end of the sequence of `is_up`
results. -/
def consecutiveFailures (results : List Bool) : Nat :=
  (results.reverse.takeWhile fun b => !b).length

/-! ### Helper lemmas about the embedding -/

theorem lookupStatus_insertStatus_self (l : List (String × EndpointStatus))
    (k : String) (v : EndpointStatus) :
    lookupStatus (insertStatus l k v) k = some v := by
  induction l with
  | nil => simp [insertStatus, lookupStatus]
  | cons p rest ih =>
    by_cases h : p.1 = k
    · simp [insertStatus, lookupStatus, h]
    · simp [insertStatus, lookupStatus, h, ih]

theorem runChecks_append (ep : String) (m : Monitor)
    (xs ys : List (CheckResult × Time)) :
    runChecks ep m (xs ++ ys) = runChecks ep (runChecks ep m xs) ys := by
  induction xs generalizing m with
  | nil => simp [runChecks]
  | cons p rest ih => simp [runChecks, ih]

theorem getAllStatuses_eq_statusMap (m : Monitor) :
    GetAllStatuses m = m.statusMap := by
  have h : ∀ (l acc : List (String × EndpointStatus)),
      l.foldl (fun snapshot p => snapshot ++ [p]) acc = acc ++ l := by
    intro l
    induction l with
    | nil => simp
    | cons p rest ih => intro acc; simp [List.foldl_cons, ih]
  simp [GetAllStatuses, h]

theorem foundStatus_isUp (m : Monitor) (ep : String) (now : Time) :
    (foundStatus m ep now).isUp = prevIsUp m ep := by
  unfold foundStatus prevIsUp
  cases lookupStatus m.statusMap ep <;> simp [zeroStatus]

theorem foundStatus_failureCount (m : Monitor) (ep : String) (now : Time) :
    (foundStatus m ep now).failureCount = prevFailureCount m ep := by
  unfold foundStatus prevFailureCount
  cases lookupStatus m.statusMap ep <;> simp [zeroStatus]

theorem foundStatus_lastAlertTime (m : Monitor) (ep : String) (now : Time) :
    (foundStatus m ep now).lastAlertTime = prevAlertTime m ep := by
  unfold foundStatus prevAlertTime
  cases lookupStatus m.statusMap ep <;> simp [zeroStatus]

theorem updateMetrics_isUp (st : EndpointStatus) (r : CheckResult) (now : Time)
    (p : Option Nat) : (updateMetrics st r now p).isUp = r.isUp := by
  unfold updateMetrics
  cases r.isUp <;> simp

theorem updateMetrics_failureCount (st : EndpointStatus) (r : CheckResult)
    (now : Time) (p : Option Nat) :
    (updateMetrics st r now p).failureCount =
      (if r.isUp = true then 0 else st.failureCount + 1) := by
  unfold updateMetrics
  cases r.isUp <;> simp

theorem updateMetrics_lastAlertTime (st : EndpointStatus) (r : CheckResult)
    (now : Time) (p : Option Nat) :
    (updateMetrics st r now p).lastAlertTime = st.lastAlertTime := by
  unfold updateMetrics
  cases r.isUp <;> simp

theorem updateMetrics_certExpiry (st : EndpointStatus) (r : CheckResult)
    (now : Time) (p : Option Nat) :
    (updateMetrics st r now p).certExpiry = p := by
  unfold updateMetrics
  cases r.isUp <;> simp

/-- The code's alert policy, as a single Boolean formula. -/
theorem alertPolicy_eq (sc : Bool) (r : CheckResult) (st : EndpointStatus)
    (now : Time) :
    alertPolicy sc r st now =
      (sc || (!r.isUp &&
        decide (escalationFires st.failureCount (now - st.lastAlertTime)))) := by
  unfold alertPolicy escalationFires
  cases sc <;> cases hup : r.isUp <;> simp

/-- The Boolean `statusChanged` computed by the code coincides with the
spec-side `statusTransition` predicate. -/
theorem statusChanged_iff (m : Monitor) (ep : String) (r : CheckResult)
    (now : Time) :
    ((!(lookupStatus m.statusMap ep).isSome ||
        (foundStatus m ep now).isUp != r.isUp) = true) ↔
      statusTransition m ep r := by
  unfold statusTransition foundStatus prevIsUp
  rcases h : lookupStatus m.statusMap ep with _ | st0 <;>
    simp [h, zeroStatus, bne_iff_ne]

/-- The code's alert decision, evaluated on the post-metrics record,
coincides with the spec-side `alertDecision`. -/
theorem alertPolicy_iff (m : Monitor) (ep : String) (r : CheckResult) (t : Time)
    (p : Option Nat) :
    (alertPolicy
        (!(lookupStatus m.statusMap ep).isSome || (foundStatus m ep t).isUp != r.isUp)
        r (updateMetrics (foundStatus m ep t) r t p) t = true) ↔
      alertDecision m ep r t := by
  rw [alertPolicy_eq]
  unfold alertDecision newFailureCount
  have hst_iff : ((lookupStatus m.statusMap ep).isSome = false ∨
      ((foundStatus m ep t).isUp != r.isUp) = true) ↔ statusTransition m ep r := by
    rw [← statusChanged_iff m ep r t]
    simp
  simp only [Bool.or_eq_true, Bool.and_eq_true, Bool.not_eq_true',
    decide_eq_true_eq, updateMetrics_failureCount,
    updateMetrics_lastAlertTime, foundStatus_failureCount,
    foundStatus_lastAlertTime]
  rw [hst_iff]

theorem checkAndNotify_status (m : Monitor) (ep : String) (r : CheckResult)
    (t : Time) :
    ∃ st, lookupStatus (CheckAndNotify m ep r t).1.statusMap ep = some st ∧
      st.isUp = r.isUp ∧
      st.failureCount = newFailureCount m ep r ∧
      st.lastAlertTime =
        (if alertDecision m ep r t then t else prevAlertTime m ep) := by
  simp only [CheckAndNotify]
  refine ⟨_, lookupStatus_insertStatus_self _ _ _, ?_, ?_, ?_⟩
  · split_ifs <;> simp [updateMetrics_isUp]
  · unfold newFailureCount
    split_ifs <;>
      simp_all [updateMetrics_failureCount, foundStatus_failureCount]
  · by_cases hd : alertDecision m ep r t
    · rw [if_pos ((alertPolicy_iff m ep r t _).mpr hd), if_pos hd]
    · rw [if_neg (fun hc => hd ((alertPolicy_iff m ep r t _).mp hc)), if_neg hd]
      split_ifs <;>
        simp [updateMetrics_lastAlertTime, foundStatus_lastAlertTime]

theorem certExpiryBlock_filter_down (ep : String) (r : CheckResult)
    (st : EndpointStatus) (t : Time) :
    (certExpiryBlock ep r st t).filter Notification.isDownAlert = [] := by
  unfold certExpiryBlock
  cases r.certExpiry <;> simp
  intro a h1 h2 h3 ha
  subst ha
  rfl

theorem certExpiryBlock_filter_up (ep : String) (r : CheckResult)
    (st : EndpointStatus) (t : Time) :
    (certExpiryBlock ep r st t).filter Notification.isUpAlert = [] := by
  unfold certExpiryBlock
  cases r.certExpiry <;> simp
  intro a h1 h2 h3 ha
  subst ha
  rfl

/-- Claim C2 (amended): on an endpoint that is stored down and stays
down, `CheckAndNotify` dispatches a down alert exactly when the updated
failure count is 3, or is 6 with strictly more than 15 minutes since
the stored `lastAlertTime`, or is at least 10 with strictly more than
30 minutes since the stored `lastAlertTime` (the code uses strict `>`,
not "at least"); in particular no alert fires at failure counts
1, 2, 4, 5, 7, 8, 9. -/
theorem downAlert_iff_escalation (m : Monitor) (ep : String)
    (st : EndpointStatus) (r : CheckResult) (t : Time)
    (hlk : lookupStatus m.statusMap ep = some st)
    (hdown : st.isUp = false) (hr : r.isUp = false) :
    (CheckAndNotify m ep r t).2.filter Notification.isDownAlert =
      (if escalationFires (st.failureCount + 1) (t - st.lastAlertTime) then
        [Notification.downAlert ep (st.failureCount + 1) r.error]
      else []) := by
  have hfound : foundStatus m ep t = st := by
    unfold foundStatus
    rw [hlk]
  have hsc : (!(lookupStatus m.statusMap ep).isSome ||
      (foundStatus m ep t).isUp != r.isUp) = false := by
    rw [hlk, hfound, hdown, hr]
    rfl
  simp only [CheckAndNotify, hsc, List.filter_append,
    certExpiryBlock_filter_down, List.nil_append, alertPolicy_eq,
    statusChangeBlock, updateMetrics_failureCount,
    updateMetrics_lastAlertTime, hfound, hr]
  by_cases hesc : escalationFires (st.failureCount + 1) (t - st.lastAlertTime)
  · simp [hesc, hdown, hr, hsc, hlk, Notification.isDownAlert,
      updateMetrics_failureCount, hfound]
  · simp [hesc, hdown, hr, hsc, hlk]

theorem statusChangeBlock_filter_cert (ep : String) (r : CheckResult)
    (e p sa : Bool) (st : EndpointStatus) (t : Time) :
    (statusChangeBlock ep r e p sa st t).filter Notification.isCertWarning = [] := by
  unfold statusChangeBlock
  split_ifs <;> simp [Notification.isCertWarning]

/-- Claim C6 (amended): the first-ever `CheckAndNotify` call for an
endpoint never dispatches an up-recovery notification; when the first
result is up no up- or down-notification is dispatched (though a
certificate-expiry warning may still fire), and when the first result
is down exactly one down notification is dispatched, carrying failure
count 1. -/
theorem firstCheck_notifications (m : Monitor) (ep : String) (r : CheckResult)
    (t : Time) (hlk : lookupStatus m.statusMap ep = none) :
    (CheckAndNotify m ep r t).2.filter Notification.isUpAlert = [] ∧
    (CheckAndNotify m ep r t).2.filter Notification.isDownAlert =
      (if r.isUp = true then [] else [Notification.downAlert ep 1 r.error]) := by
  have hfound : foundStatus m ep t = zeroStatus t := by
    unfold foundStatus
    rw [hlk]
  have hsc : (!(lookupStatus m.statusMap ep).isSome ||
      (foundStatus m ep t).isUp != r.isUp) = true := by
    rw [hlk]
    rfl
  constructor <;>
    simp only [CheckAndNotify, hsc, List.filter_append,
      certExpiryBlock_filter_up, certExpiryBlock_filter_down,
      List.nil_append, alertPolicy_eq, statusChangeBlock,
      updateMetrics_failureCount, hfound, hlk] <;>
    cases hup : r.isUp <;>
    simp [hup, Notification.isUpAlert, Notification.isDownAlert, zeroStatus]

theorem consecutiveFailures_concat_true (l : List Bool) :
    consecutiveFailures (l ++ [true]) = 0 := by
  simp [consecutiveFailures]

theorem consecutiveFailures_concat_false (l : List Bool) :
    consecutiveFailures (l ++ [false]) = consecutiveFailures l + 1 := by
  simp [consecutiveFailures, Nat.add_comm]

/-- Claim C5: over any nonempty sequence of checks on one endpoint
starting from a fresh monitor, the stored `failureCount` equals the
number of consecutive down results since the last up result (or since
the start), the stored `isUp` mirrors the last result, and an up status
forces a zero failure count. -/
theorem c5_failure_count_invariant (ep : String)
    (inputs : List (CheckResult × Time)) (h : inputs ≠ []) :
    ∃ st, lookupStatus (runChecks ep Monitor.init inputs).statusMap ep = some st ∧
      st.isUp = (inputs.getLast h).1.isUp ∧
      st.failureCount = (consecutiveFailures (inputs.map fun p => p.1.isUp) : Int) ∧
      (st.isUp = true → st.failureCount = 0) := by
  induction inputs using List.reverseRecOn with
  | nil => exact absurd rfl h
  | append_singleton xs x ih =>
    obtain ⟨r, t⟩ := x
    obtain ⟨st, hst, hisUp, hfc, -⟩ :=
      checkAndNotify_status (runChecks ep Monitor.init xs) ep r t
    have hrun : runChecks ep Monitor.init (xs ++ [(r, t)]) =
        (CheckAndNotify (runChecks ep Monitor.init xs) ep r t).1 := by
      rw [runChecks_append]
      rfl
    have hcount : newFailureCount (runChecks ep Monitor.init xs) ep r =
        (consecutiveFailures ((xs ++ [(r, t)]).map fun p => p.1.isUp) : Int) := by
      rw [List.map_append]
      cases hup : r.isUp
      · simp only [List.map_cons, List.map_nil, hup]
        rw [consecutiveFailures_concat_false]
        unfold newFailureCount
        simp only [hup, Bool.false_eq_true, if_neg, if_false]
        by_cases hxs : xs = []
        · subst hxs
          simp [prevFailureCount, lookupStatus, Monitor.init, consecutiveFailures]
        · obtain ⟨stp, hstp, -, hfcp, -⟩ := ih hxs
          unfold prevFailureCount
          rw [hstp]
          change stp.failureCount + 1 = _
          rw [hfcp]
          push_cast
          ring
      · simp only [List.map_cons, List.map_nil, hup]
        rw [consecutiveFailures_concat_true]
        unfold newFailureCount
        simp [hup]
    refine ⟨st, ?_, ?_, ?_, ?_⟩
    · rw [hrun]
      exact hst
    · rw [List.getLast_append]
      exact hisUp
    · rw [hfc, hcount]
    · intro hT
      have hx : r.isUp = true := by
        rw [← hisUp]
        exact hT
      rw [hfc]
      unfold newFailureCount
      simp [hx]

/-! ### Concrete probe results and states used by the concrete theorems -/

/-- A plain successful probe result. -/
def rUpPlain : CheckResult :=
  { isUp := true, responseTime := 0, statusCode := 200, error := "",
    certExpiry := none }

/-- A plain failed probe result. -/
def rDownPlain : CheckResult :=
  { isUp := false, responseTime := 0, statusCode := 0,
    error := "connection refused", certExpiry := none }

/-- State after an endpoint's first check came back down at `hours 100`. -/
def c1m1 : Monitor :=
  (CheckAndNotify Monitor.init "10.0.0.5:22" rDownPlain (hours 100)).1

/-- Claim C1 (code bug): an endpoint observed down and then up five
minutes later does produce exactly one up-recovery notification, but
the notification carries failure count 0 (the counter was reset before
dispatch) and downtime 0 (`lastStatusChange` was set to `now` before
the subtraction), not the accumulated failure count 1 and the elapsed
five minutes the claim describes. -/
theorem c1_up_alert_carries_zero_downtime_and_count :
    (lookupStatus c1m1.statusMap "10.0.0.5:22").map EndpointStatus.failureCount
      = some 1 ∧
    (CheckAndNotify c1m1 "10.0.0.5:22" rUpPlain (hours 100 + minutes 5)).2 =
      [Notification.upAlert "10.0.0.5:22" 0 0] ∧
    minutes 5 ≠ (0 : Int) := by
  decide

/-- An endpoint stored down with five consecutive failures, last
alerted at `hours 100`. -/
def c2state : EndpointStatus :=
  { isUp := false, lastCheck := 0, lastStatusChange := 0, responseTime := 0,
    failureCount := 5, lastAlertTime := hours 100, statusCode := 0,
    certExpiry := none }

/-- Monitor holding `c2state`. -/
def c2monitor : Monitor := { statusMap := [("db:5432", c2state)], timeHeap := [] }

/-- Claim C2, counterexample: the sixth consecutive failure lands
exactly 15 minutes after the last alert; the claim's "at least 15
minutes" demands an alert, but the code's strict `>` dispatches
nothing. -/
theorem c2_counterexample_exactly_15_minutes :
    c2state.failureCount + 1 = 6 ∧
    (hours 100 + minutes 15) - c2state.lastAlertTime = minutes 15 ∧
    (CheckAndNotify c2monitor "db:5432" rDownPlain (hours 100 + minutes 15)).2
      = [] := by
  decide

/-- An endpoint stored down with two consecutive failures. -/
def c2wState : EndpointStatus :=
  { isUp := false, lastCheck := 0, lastStatusChange := 0, responseTime := 0,
    failureCount := 2, lastAlertTime := 0, statusCode := 0, certExpiry := none }

/-- Monitor holding `c2wState`. -/
def c2wMonitor : Monitor :=
  { statusMap := [("cache:6379", c2wState)], timeHeap := [] }

theorem downAlert_iff_escalation_witness :
    lookupStatus c2wMonitor.statusMap "cache:6379" = some c2wState ∧
    c2wState.isUp = false ∧ rDownPlain.isUp = false ∧
    (CheckAndNotify c2wMonitor "cache:6379" rDownPlain (minutes 1)).2.filter
        Notification.isDownAlert =
      (if escalationFires (c2wState.failureCount + 1)
          (minutes 1 - c2wState.lastAlertTime) then
        [Notification.downAlert "cache:6379" (c2wState.failureCount + 1)
          rDownPlain.error]
      else []) :=
  ⟨rfl, rfl, rfl,
    downAlert_iff_escalation c2wMonitor "cache:6379" c2wState rDownPlain
      (minutes 1) rfl rfl rfl⟩

/-- Claim C3 (amended): after any `CheckAndNotify` call, the stored
`lastAlertTime` equals `now` exactly when the alert decision (status
transition — including the first-ever check — or down-escalation)
holds, and keeps its previous value otherwise.  It is therefore written
in every call whose decision holds, whether or not anything is
dispatched, and a dispatch failure cannot roll it back because the
state never depends on the dispatch outcome. -/
theorem c3_last_alert_time_update_rule (m : Monitor) (ep : String)
    (r : CheckResult) (t : Time) :
    ∃ st, lookupStatus (CheckAndNotify m ep r t).1.statusMap ep = some st ∧
      st.lastAlertTime = (if alertDecision m ep r t then t else prevAlertTime m ep) := by
  obtain ⟨st, h1, -, -, h4⟩ := checkAndNotify_status m ep r t
  exact ⟨st, h1, h4⟩

/-- Claim C3, counterexample: the first-ever check of an endpoint with
an up result dispatches no notification at all, yet writes the stored
`lastAlertTime` (from the zero value to `now = 7`). -/
theorem c3_counterexample_first_up_write_without_dispatch :
    lookupStatus Monitor.init.statusMap "web:443" = none ∧
    (CheckAndNotify Monitor.init "web:443" rUpPlain 7).2 = [] ∧
    (lookupStatus (CheckAndNotify Monitor.init "web:443" rUpPlain 7).1.statusMap
        "web:443").map EndpointStatus.lastAlertTime = some 7 ∧
    (7 : Time) ≠ 0 := by
  decide

/-- Base time for the certificate-warning trace. -/
def c4T : Time := hours 100

/-- A successful HTTPS probe whose certificate expires 10 days after
`t`. -/
def c4rCert (t : Time) : CheckResult :=
  { isUp := true, responseTime := 0, statusCode := 200, error := "",
    certExpiry := some (t + hours 240) }

/-- State after the first (plain up) check of the C4 trace. -/
def c4m1 : Monitor := (CheckAndNotify Monitor.init "https://site" rUpPlain c4T).1

/-- Second call of the C4 trace, 25 hours later, certificate expiring
in 10 days. -/
def c4call2 : Monitor × List Notification :=
  CheckAndNotify c4m1 "https://site" (c4rCert (c4T + hours 25)) (c4T + hours 25)

/-- Third call of the C4 trace, one further hour later. -/
def c4call3 : Monitor × List Notification :=
  CheckAndNotify c4call2.1 "https://site" (c4rCert (c4T + hours 26)) (c4T + hours 26)

/-- Claim C4 (code bug): a certificate-expiry warning fires in the
second call of the trace and again in the third call although only one
hour has passed — the warning dispatch never refreshes the stored
`lastAlertTime`, so the "once per day" suppression the code's own
comment announces does not hold. -/
theorem c4_cert_warning_repeats_within_24_hours :
    c4call2.2 = [Notification.certExpiryWarning "https://site" (c4T + hours 25 + hours 240)] ∧
    c4call3.2 = [Notification.certExpiryWarning "https://site" (c4T + hours 26 + hours 240)] ∧
    (c4T + hours 26) - (c4T + hours 25) = hours 1 ∧
    hours 1 < hours 24 := by
  decide

/-- A successful first probe of an HTTPS endpoint whose certificate
expires at `hours 340` (10 days after the check time `hours 100`). -/
def c6CertResult : CheckResult :=
  { isUp := true, responseTime := 0, statusCode := 200, error := "",
    certExpiry := some (hours 340) }

/-- Claim C6, counterexample: the very first check of an endpoint, with
an up result, dispatches a certificate-expiry warning — so "if the
first result is up, no notification is sent" fails. -/
theorem c6_counterexample_first_up_check_notifies :
    lookupStatus Monitor.init.statusMap "https://first" = none ∧
    c6CertResult.isUp = true ∧
    (CheckAndNotify Monitor.init "https://first" c6CertResult (hours 100)).2 =
      [Notification.certExpiryWarning "https://first" (hours 340)] := by
  decide

theorem firstCheck_notifications_witness :
    lookupStatus Monitor.init.statusMap "site:80" = none ∧
    ((CheckAndNotify Monitor.init "site:80" rDownPlain 7).2.filter
        Notification.isUpAlert = [] ∧
      (CheckAndNotify Monitor.init "site:80" rDownPlain 7).2.filter
          Notification.isDownAlert =
        (if rDownPlain.isUp = true then []
        else [Notification.downAlert "site:80" 1 rDownPlain.error])) :=
  ⟨rfl, firstCheck_notifications Monitor.init "site:80" rDownPlain 7 rfl⟩

/-- The HTTP error text `fmt.Sprintf("HTTP %d", code)` is never the
empty string. -/
theorem httpErrorText_ne_empty (code : Int) : ("HTTP " ++ toString code) ≠ "" := by
  intro h
  have h2 := congrArg String.data h
  simp [String.data_append] at h2

/-- Claim C7: for an HTTP/HTTPS endpoint whose GET completed with a
response, the check result is up exactly when the status code lies in
`[200, 400)`; the result records the status code, an empty error on
success and the error `"HTTP <code>"` otherwise. -/
theorem c7_http_response_classification (ep : String) (net : NetworkOracle)
    (code : Int) (cert : Option Time)
    (hpre : startsWithStr ep "http://" = true ∨ startsWithStr ep "https://" = true)
    (hresp : net.httpOutcome = HTTPOutcome.response code cert) :
    ((CheckEndpoint ep net).isUp = true ↔ 200 ≤ code ∧ code < 400) ∧
    (CheckEndpoint ep net).statusCode = code ∧
    (CheckEndpoint ep net).error =
      (if 200 ≤ code ∧ code < 400 then "" else "HTTP " ++ toString code) := by
  have hif : (startsWithStr ep "http://" || startsWithStr ep "https://") = true := by
    rcases hpre with h | h <;> simp [h]
  unfold CheckEndpoint checkHTTP
  rw [hresp]
  by_cases hc : 200 ≤ code ∧ code < 400 <;> simp [hif, hc]

/-- A GET against `https://example.com` answered with status 404 and no
TLS data. -/
def c7net : NetworkOracle :=
  { tcpDialError := none, httpOutcome := HTTPOutcome.response 404 none,
    responseTime := 0 }

theorem c7_http_response_classification_witness :
    startsWithStr "https://example.com" "https://" = true ∧
    c7net.httpOutcome = HTTPOutcome.response 404 none ∧
    (CheckEndpoint "https://example.com" c7net).isUp = false ∧
    (CheckEndpoint "https://example.com" c7net).statusCode = 404 ∧
    (CheckEndpoint "https://example.com" c7net).error = "HTTP 404" := by
  have h := c7_http_response_classification "https://example.com" c7net 404 none
    (Or.inr (by decide)) rfl
  refine ⟨by decide, rfl, ?_, h.2.1, ?_⟩
  · cases hu : (CheckEndpoint "https://example.com" c7net).isUp
    · rfl
    · exact absurd (h.1.mp hu) (by decide)
  · rw [h.2.2, if_neg (by decide)]
    decide

/-- Every error message the network oracle can report is non-empty
(the `Error()` string of a Go `net`/`http` error is never empty). -/
def oracleErrorsNonempty (net : NetworkOracle) : Bool :=
  (match net.tcpDialError with
    | some msg => decide (msg ≠ "")
    | none => true) &&
  (match net.httpOutcome with
    | HTTPOutcome.requestError msg => decide (msg ≠ "")
    | HTTPOutcome.response _ _ => true)

/-- Claim C9: `CheckEndpoint` is a total function of the endpoint and
the network outcome (so nothing propagates past its boundary), every
failure carries a non-empty error string (given that the underlying
library error messages are non-empty), and a success carries an empty
one. -/
theorem c9_error_discipline (ep : String) (net : NetworkOracle)
    (hne : oracleErrorsNonempty net = true) :
    ((CheckEndpoint ep net).isUp = false → (CheckEndpoint ep net).error ≠ "") ∧
    ((CheckEndpoint ep net).isUp = true → (CheckEndpoint ep net).error = "") := by
  unfold oracleErrorsNonempty at hne
  rw [Bool.and_eq_true] at hne
  obtain ⟨htcp, hhttp⟩ := hne
  unfold CheckEndpoint checkTCP checkHTTP
  by_cases hpre : (startsWithStr ep "http://" || startsWithStr ep "https://") = true
  · rw [if_pos hpre]
    cases ho : net.httpOutcome with
    | requestError msg =>
      rw [ho] at hhttp
      simp only [decide_eq_true_eq] at hhttp
      simp [hhttp]
    | response code cert =>
      by_cases hc : 200 ≤ code ∧ code < 400 <;>
        simp [hc, httpErrorText_ne_empty]
  · rw [if_neg hpre]
    cases ht : net.tcpDialError with
    | none => simp
    | some msg =>
      rw [ht] at htcp
      simp only [decide_eq_true_eq] at htcp
      simp [htcp]

/-- A TCP probe whose dial failed with "connection refused". -/
def c9net : NetworkOracle :=
  { tcpDialError := some "connection refused",
    httpOutcome := HTTPOutcome.requestError "x", responseTime := 0 }

theorem c9_error_discipline_witness :
    oracleErrorsNonempty c9net = true ∧
    (CheckEndpoint "db:5432" c9net).isUp = false ∧
    (CheckEndpoint "db:5432" c9net).error ≠ "" := by
  have h := c9_error_discipline "db:5432" c9net (by decide)
  exact ⟨by decide, by decide, h.1 (by decide)⟩

/-- Claim C10: a check of an endpoint whose identifier does not start
with `https://` (TCP targets and plain `http://` URLs alike) never
carries a certificate expiry, and consequently a `CheckAndNotify` call
fed with such a check result never dispatches a certificate-expiry
warning. -/
theorem c10_cert_expiry_only_https (ep : String) (net : NetworkOracle)
    (m : Monitor) (t : Time)
    (hns : startsWithStr ep "https://" = false) :
    (CheckEndpoint ep net).certExpiry = none ∧
    (CheckAndNotify m ep (CheckEndpoint ep net) t).2.filter
        Notification.isCertWarning = [] := by
  have h1 : (CheckEndpoint ep net).certExpiry = none := by
    unfold CheckEndpoint checkHTTP checkTCP
    by_cases hpre : (startsWithStr ep "http://" || startsWithStr ep "https://") = true
    · rw [if_pos hpre]
      cases net.httpOutcome with
      | requestError msg => simp
      | response code cert =>
        by_cases hc : 200 ≤ code ∧ code < 400 <;> simp [hc, hns]
    · rw [if_neg hpre]
      cases net.tcpDialError <;> simp
  refine ⟨h1, ?_⟩
  simp only [CheckAndNotify, List.filter_append, statusChangeBlock_filter_cert,
    List.append_nil]
  unfold certExpiryBlock
  rw [h1]
  rfl

theorem c10_cert_expiry_only_https_witness :
    startsWithStr "10.1.1.9:8080" "https://" = false ∧
    (CheckEndpoint "10.1.1.9:8080" c9net).certExpiry = none ∧
    (CheckAndNotify Monitor.init "10.1.1.9:8080"
        (CheckEndpoint "10.1.1.9:8080" c9net) 5).2.filter
      Notification.isCertWarning = [] := by
  have h := c10_cert_expiry_only_https "10.1.1.9:8080" c9net Monitor.init 5 (by decide)
  exact ⟨by decide, h.1, h.2⟩

/-- Claim C8: `GetAllStatuses` returns exactly the stored statuses, and
no later `CheckAndNotify` call can change anything an already-returned
snapshot refers to: the snapshot entries are plain copies, and the one
pointer field (`certExpiry`) refers into the timestamp heap, which
later calls only extend with fresh cells, never overwrite. -/
theorem c8_snapshot_immutable (m : Monitor) (ep : String) (r : CheckResult)
    (t : Time) (hwf : heapWF m = true) :
    GetAllStatuses m = m.statusMap ∧
    ∀ e st i, (e, st) ∈ GetAllStatuses m → st.certExpiry = some i →
      ((CheckAndNotify m ep r t).1.timeHeap[i]? = m.timeHeap[i]? ∧
        m.timeHeap[i]?.isSome = true) := by
  refine ⟨getAllStatuses_eq_statusMap m, ?_⟩
  intro e st i hmem hce
  rw [getAllStatuses_eq_statusMap] at hmem
  have hlt : i < m.timeHeap.length := by
    unfold heapWF at hwf
    have h2 := List.all_eq_true.mp hwf (e, st) hmem
    rw [hce] at h2
    simpa using h2
  have hheap : (CheckAndNotify m ep r t).1.timeHeap =
      m.timeHeap ++ (match r.certExpiry with | some x => [x] | none => []) := by
    simp only [CheckAndNotify]
    unfold allocCert
    cases r.certExpiry <;> simp
  rw [hheap]
  constructor
  · exact List.getElem?_append_left hlt
  · simp [List.getElem?_eq_getElem hlt]

/-- A stored HTTPS endpoint whose certificate pointer refers to heap
cell 0. -/
def c8state : EndpointStatus :=
  { isUp := true, lastCheck := 0, lastStatusChange := 0, responseTime := 0,
    failureCount := 0, lastAlertTime := 0, statusCode := 200,
    certExpiry := some 0 }

/-- Monitor holding `c8state` and one allocated timestamp cell. -/
def c8monitor : Monitor :=
  { statusMap := [("https://w", c8state)], timeHeap := [hours 500] }

theorem c8_snapshot_immutable_witness :
    heapWF c8monitor = true ∧
    GetAllStatuses c8monitor = c8monitor.statusMap ∧
    ((CheckAndNotify c8monitor "https://w" rUpPlain 3).1.timeHeap[0]? =
        c8monitor.timeHeap[0]? ∧
      c8monitor.timeHeap[0]?.isSome = true) := by
  have h := c8_snapshot_immutable c8monitor "https://w" rUpPlain 3 (by decide)
  exact ⟨by decide, h.1, h.2 "https://w" c8state 0 (by decide) rfl⟩

theorem c5_failure_count_invariant_witness :
    ([(rDownPlain, (3 : Time)), (rDownPlain, 4)] : List (CheckResult × Time)) ≠ [] ∧
    (lookupStatus (runChecks "svc:9" Monitor.init
        [(rDownPlain, 3), (rDownPlain, 4)]).statusMap "svc:9").map
      EndpointStatus.failureCount = some 2 := by
  obtain ⟨st, h1, -, h3, -⟩ :=
    c5_failure_count_invariant "svc:9" [(rDownPlain, 3), (rDownPlain, 4)] (by simp)
  refine ⟨by simp, ?_⟩
  rw [h1, Option.map_some', h3]
  decide

end PortChecker
